import Mathlib

/-!
Verification of the pynapse storage-SDK core against its specification.

The Python sources are shallowly embedded:
bytes become lists of naturals below 256, strings become `String` or
`List Char`, exceptions become an explicit `PyErr` sum carried in `Except`,
and every collaborator (chain reader, registry, PDP HTTP server) becomes a
record of oracle functions supplied as an argument.
-/

namespace Pynapse

/-- Python exception values that the embedded code can raise.  The
constructors mirror the exception classes that actually appear in the
sources (`ValueError`, `IndexError`, `binascii.Error`, `RuntimeError`,
`TimeoutError`) plus the two names `AlreadyExistsError` /
`IdempotencyError` that `storage/context.py` imports from
`pdp/server.py`. -/
inductive PyErr where
  | valueError (msg : String)
  | indexError
  | binasciiError
  | runtimeError (msg : String)
  | timeoutError (msg : String)
  | alreadyExistsError (existingResourceId : Option String)
  | idempotencyError (msg : String)
  deriving DecidableEq

/-- Boolean test that an `Except` value is a success. -/
def isOkE {ε α : Type} : Except ε α → Bool
  | .ok _ => true
  | .error _ => false

/-! ## Bits and bytes

`core/piece.py` manipulates Python `bytes`; we model a byte string as a
`List Nat` whose entries are below 256. -/

/-- The eight bits of a byte, most significant first. -/
def byteBits (b : Nat) : List Bool :=
  [b.testBit 7, b.testBit 6, b.testBit 5, b.testBit 4,
   b.testBit 3, b.testBit 2, b.testBit 1, b.testBit 0]

/-- The five bits of a base32 symbol value, most significant first. -/
def fiveBits (v : Nat) : List Bool :=
  [v.testBit 4, v.testBit 3, v.testBit 2, v.testBit 1, v.testBit 0]

/-- Value of a bit list, most significant bit first. -/
def bitsVal : List Bool → Nat
  | [] => 0
  | b :: bs => (if b then 1 else 0) * 2 ^ bs.length + bitsVal bs

/-- Split a bit stream into 5-bit groups, zero-padding the last group:
this is how RFC 4648 base32 (Python `base64.b32encode`) consumes its
input. -/
def chunk5 : List Bool → List (List Bool)
  | b1 :: b2 :: b3 :: b4 :: b5 :: rest => [b1, b2, b3, b4, b5] :: chunk5 rest
  | [] => []
  | [b1] => [[b1, false, false, false, false]]
  | [b1, b2] => [[b1, b2, false, false, false]]
  | [b1, b2, b3] => [[b1, b2, b3, false, false]]
  | [b1, b2, b3, b4] => [[b1, b2, b3, b4, false]]

/-- Regroup a bit stream into bytes, discarding a trailing partial byte:
this is how `base64.b32decode` emits its output. -/
def chunk8 : List Bool → List Nat
  | b1 :: b2 :: b3 :: b4 :: b5 :: b6 :: b7 :: b8 :: rest =>
      bitsVal [b1, b2, b3, b4, b5, b6, b7, b8] :: chunk8 rest
  | _ => []

/-- The lower-case RFC 4648 base32 alphabet used by multibase `b`. -/
def b32Alphabet : List Char :=
  ['a', 'b', 'c', 'd', 'e', 'f', 'g', 'h', 'i', 'j', 'k', 'l', 'm',
   'n', 'o', 'p', 'q', 'r', 's', 't', 'u', 'v', 'w', 'x', 'y', 'z',
   '2', '3', '4', '5', '6', '7']

def valToChar (v : Nat) : Char := b32Alphabet.getD v 'a'

def charToVal (c : Char) : Option Nat := b32Alphabet.indexOf? c

/-- `base64.b32encode(data).decode().lower().rstrip('=')`, as performed by
`_encode_multibase_base32`: emit one alphabet character per 5-bit group
and drop the `=` padding. -/
def pyB32Encode (data : List Nat) : List Char :=
  (chunk5 (data.flatMap byteBits)).map (fun g => valToChar (bitsVal g))

/-- `base64.b32decode` applied to an upper-cased, re-padded string, as
performed by `_decode_multibase_base32`.  CPython rejects a (pre-padding)
length congruent to 1, 3 or 6 mod 8 (no base32 encoding produces these)
with `binascii.Error`; otherwise each character contributes its 5 bits
and a trailing partial byte is discarded. -/
def pyB32Decode (chars : List Char) : Except PyErr (List Nat) :=
  if chars.length % 8 = 1 ∨ chars.length % 8 = 3 ∨ chars.length % 8 = 6 then
    .error .binasciiError
  else
    match chars.mapM charToVal with
    | none => .error .binasciiError
    | some vals => .ok (chunk8 (vals.flatMap fiveBits))

/-! ## Piece identifier codec (`core/piece.py`) -/

/-- Iteration body of `_encode_varint` with explicit fuel; the fuel only
bounds the loop count (the loop divides its argument by 128 each step, so
`value` itself is always enough fuel). -/
def encodeVarintFuel : Nat → Nat → List Nat
  | 0, value => [value]
  | fuel + 1, value =>
      if value < 128 then [value]
      else (value % 128 + 128) :: encodeVarintFuel fuel (value / 128)

/-- `_encode_varint`: unsigned LEB128.  While `value >= 0x80` emit
`(value & 0x7f) | 0x80` and shift right by 7; finally emit `value`. -/
def encodeVarint (value : Nat) : List Nat := encodeVarintFuel value value

/-- `_encode_multibase_base32`: base32-lower encoding with the `b`
multibase prefix. -/
def encodeMultibaseBase32 (data : List Nat) : List Char :=
  'b' :: pyB32Encode data

/-- `str.startswith(p)`: character-wise prefix test. -/
def startsWithChars : List Char → List Char → Bool
  | [], _ => true
  | _ :: _, [] => false
  | p :: ps, s :: ss => p == s && startsWithChars ps ss

/-- `_decode_multibase_base32`: accept only strings starting with `baga`
or `bafk`, strip the `b` prefix and base32-decode the rest; anything else
raises `ValueError`. -/
def decodeMultibaseBase32 (cidStr : List Char) : Except PyErr (List Nat) :=
  if startsWithChars ['b', 'a', 'g', 'a'] cidStr
      || startsWithChars ['b', 'a', 'f', 'k'] cidStr then
    pyB32Decode (cidStr.drop 1)
  else
    .error (.valueError ("Unsupported CID format: " ++ String.mk cidStr))

/-- The loop `while cid_bytes[idx] & 0x80: idx += 1` followed by
`idx += 1`, phrased on the list suffix starting at `idx`: returns the
suffix after the varint, or `IndexError` when the read runs off the end
of the byte string. -/
def skipHighBytes : List Nat → Except PyErr (List Nat)
  | [] => .error .indexError
  | b :: rest => if b &&& 128 ≠ 0 then skipHighBytes rest else .ok rest

/-- `_extract_root_hash_from_pieceCIDv1`: decode the multibase string,
skip the version byte, the codec varint, the multihash-code varint and
the one-byte digest length, then return the next (up to) 32 bytes.
Index arithmetic on `cid_bytes` is rendered as suffix passing; the plain
`idx += 1` steps do not read and so never raise, and the final Python
slice `cid_bytes[idx:idx+32]` silently returns fewer bytes when the
input is short. -/
def extractRootHashFromPieceCIDv1 (pieceCidV1 : List Char) :
    Except PyErr (List Nat) := do
  let cidBytes ← decodeMultibaseBase32 pieceCidV1
  let rest := cidBytes.drop 1
  let rest ← skipHighBytes rest
  let rest ← skipHighBytes rest
  let rest := rest.drop 1
  .ok (rest.take 32)

/-- Iteration body of `int(math.log2 n)` with fuel (the Python call is
floating point; for every value reachable in these claims the float is
exact and the result is the floor base-2 logarithm). -/
def log2Fuel : Nat → Nat → Nat
  | 0, _ => 0
  | fuel + 1, n => if n < 2 then 0 else log2Fuel fuel (n / 2) + 1

/-- `int(math.log2 n)` for positive `n`: floor base-2 logarithm. -/
def pyIntLog2 (n : Nat) : Nat := log2Fuel n n

def RAW_CODEC : Nat := 0x55
def FR32_SHA2_256_TRUNC254_PADBINTREE : Nat := 0x1011
def FIL_COMMITMENT_UNSEALED : Nat := 0xf101
def SHA2_256_TRUNC254_PADDED : Nat := 0x1012
def NODE_SIZE : Nat := 32

/-- `_create_pieceCIDv2`.  The tree height is `int(math.log2(leaves))`
when `leaves > 0` else `0`; `unpadded = padded * 127 // 128`;
`padding = unpadded - payload` is a Python int that may be negative, in
which case `bytearray.append`, fed the negative head of the varint,
raises `ValueError: byte must be in range(0, 256)`; the same error fires
if the tree height itself exceeds 255.  No other validation happens. -/
def createPieceCIDv2 (rootHash : List Nat) (payloadSize paddedPieceSize : Nat) :
    Except PyErr (List Char) := do
  let numLeaves := paddedPieceSize / NODE_SIZE
  let treeHeight := if numLeaves > 0 then pyIntLog2 numLeaves else 0
  let unpaddedPieceSize := paddedPieceSize * 127 / 128
  let padding : Int := (unpaddedPieceSize : Int) - (payloadSize : Int)
  let padVarint ←
    if padding < 0 then
      throw (PyErr.valueError "byte must be in range(0, 256)")
    else
      pure (encodeVarint padding.toNat)
  if treeHeight ≥ 256 then
    throw (PyErr.valueError "byte must be in range(0, 256)")
  let digest := padVarint ++ [treeHeight] ++ rootHash
  let multihash := encodeVarint FR32_SHA2_256_TRUNC254_PADBINTREE
      ++ encodeVarint digest.length ++ digest
  let cid := 1 :: (encodeVarint RAW_CODEC ++ multihash)
  .ok (encodeMultibaseBase32 cid)

/-- `convert_to_pieceCIDv2`: extract the v1 root hash and re-encode. -/
def convertToPieceCIDv2 (pieceCidV1 : List Char)
    (payloadSize paddedPieceSize : Nat) : Except PyErr (List Char) := do
  let rootHash ← extractRootHashFromPieceCIDv1 pieceCidV1
  createPieceCIDv2 rootHash payloadSize paddedPieceSize

/-- Modelled from the spec: the repository decodes PieceCIDv1 but never
constructs one, so a v1 CID wrapping a root hash is built here from the
layout documented in `_extract_root_hash_from_pieceCIDv1` (version 1,
fil-commitment-unsealed codec, sha2-256-trunc254-padded multihash,
32-byte digest). -/
def mkPieceCIDv1 (rootHash : List Nat) : List Char :=
  encodeMultibaseBase32
    (1 :: (encodeVarint FIL_COMMITMENT_UNSEALED
      ++ encodeVarint SHA2_256_TRUNC254_PADDED
      ++ [32] ++ rootHash))

/-- Modelled from the spec: the repository has no v2 decoder, so the
root hash is read back from a v2 CID by walking the documented layout:
version byte, codec varint, multihash-code varint, digest-length varint,
then inside the digest the padding varint and one height byte before the
32-byte root. -/
def rootHashFromPieceCIDv2 (pieceCidV2 : List Char) :
    Except PyErr (List Nat) := do
  let cidBytes ← decodeMultibaseBase32 pieceCidV2
  let rest := cidBytes.drop 1
  let rest ← skipHighBytes rest
  let rest ← skipHighBytes rest
  let rest ← skipHighBytes rest
  let rest ← skipHighBytes rest
  let rest := rest.drop 1
  .ok (rest.take 32)

/-- The byte string the specification prescribes for the v2 encoder:
`version(1) || varint(0x55) || varint(0x1011) || varint(len digest) ||
digest` with `digest = varint(padding) || byte(treeHeight) || rootHash`,
`unpadded = floor(padded * 127 / 128)`, `padding = unpadded - payload`
and `treeHeight = log2(padded / 32)`, base32-lower encoded behind a `b`
prefix.  This definition follows the specification's words and is
compared with `createPieceCIDv2`, which follows the code. -/
def specEncodeV2 (rootHash : List Nat) (payloadSize paddedSize : Nat) :
    List Char :=
  let unpaddedSize := paddedSize * 127 / 128
  let padding := unpaddedSize - payloadSize
  let treeHeight := Nat.log2 (paddedSize / 32)
  let digest := encodeVarint padding ++ [treeHeight] ++ rootHash
  'b' :: pyB32Encode
    (1 :: (encodeVarint 0x55 ++ encodeVarint 0x1011
      ++ encodeVarint digest.length ++ digest))

/-! ## Metadata matching (`utils/metadata.py`)

Python `dict[str, str]` values are modelled as association lists; `len`
is the list length and `get` returns the first binding. -/

def dictGet (m : List (String × String)) (k : String) : Option String :=
  (m.find? (fun kv => kv.1 = k)).map (fun kv => kv.2)

/-- `metadata_matches`: reject on unequal lengths, accept an empty
request, else require every requested binding to be present. -/
def metadataMatches (dataSetMetadata requestedMetadata : List (String × String)) :
    Bool :=
  if dataSetMetadata.length ≠ requestedMetadata.length then false
  else if requestedMetadata.isEmpty then true
  else requestedMetadata.all (fun kv => dictGet dataSetMetadata kv.1 = some kv.2)

/-! ## Collaborator records (chain reader, provider registry)

The resolver receives a `SyncWarmStorageService` and an `SPRegistryService`
as duck-typed collaborators; they are modelled as records of oracle
functions, with `Except PyErr` marking the calls that can raise. -/

/-- `sp_registry.types.ProviderInfo`. -/
structure ProviderInfo where
  providerId : Nat
  serviceProvider : String
  payee : String
  name : String
  descr : String
  isActive : Bool
  deriving DecidableEq

/-- `warm_storage.service.DataSetInfo` (the fields this core reads). -/
structure DataSetInfo where
  payer : String
  clientDataSetId : Nat
  pdpEndEpoch : Nat
  providerId : Nat
  dataSetId : Nat
  deriving DecidableEq

/-- `warm_storage.service.EnhancedDataSetInfo` (the fields this core
reads). -/
structure EnhancedDataSetInfo extends DataSetInfo where
  activePieceCount : Nat
  isLive : Bool
  isManaged : Bool
  deriving DecidableEq

/-- `sp_registry.types.ServiceProduct` (the fields this core reads). -/
structure ServiceProduct where
  capabilityKeys : List String
  deriving DecidableEq

/-- `sp_registry.types.ProviderWithProduct`; the capability values come
back from the contract as bytes and are decoded to strings on use. -/
structure ProviderWithProduct where
  product : ServiceProduct
  productCapabilityValues : List String
  deriving DecidableEq

/-- The registry collaborator surface used by the resolver and the
retriever. -/
structure SPRegistry where
  getProvider : Nat → Option ProviderInfo
  getProviderByAddress : String → Option ProviderInfo
  getProviderWithProduct : Nat → Nat → Except PyErr ProviderWithProduct

/-- The warm-storage (chain-read) collaborator surface used by the
resolver. -/
structure WarmStorage where
  validateDataSet : Nat → Except PyErr Unit
  getDataSet : Nat → Except PyErr DataSetInfo
  getAllDataSetMetadata : Nat → Except PyErr (List (String × String))
  getClientDataSets : String → Except PyErr (List DataSetInfo)
  getApprovedProviderIds : Except PyErr (List Nat)

/-- `storage.context.StorageContextOptions` (the fields resolution
reads). -/
structure StorageContextOptions where
  providerId : Option Nat := none
  providerAddress : Option String := none
  dataSetId : Option Nat := none
  forceCreateDataSet : Bool := false
  deriving DecidableEq

/-- `storage.context.ProviderSelectionResult`; `dataSetId = -1` is the
"must create" sentinel. -/
structure ProviderSelectionResult where
  provider : ProviderInfo
  pdpEndpoint : String
  dataSetId : Int
  clientDataSetId : Nat
  isExisting : Bool
  metadata : List (String × String)
  deriving DecidableEq

/-- The loop of `StorageContext._get_pdp_endpoint`: first index `i` with
`capability_keys[i] == "serviceURL"` and `i < len(values)` yields
`values[i]`. -/
def findServiceURL : List String → List String → Nat → Option String
  | [], _, _ => none
  | k :: ks, values, i =>
      if k = "serviceURL" ∧ i < values.length then values[i]?
      else findServiceURL ks values (i + 1)

/-- `StorageContext._get_pdp_endpoint`: read the PDP product (type 0) of
the provider; any exception or a missing `serviceURL` key becomes
`ValueError`. -/
def getPdpEndpoint (reg : SPRegistry) (providerId : Nat) :
    Except PyErr String :=
  let fallthrough : Except PyErr String :=
    .error (.valueError
      ("Could not find PDP endpoint for provider " ++ toString providerId))
  match reg.getProviderWithProduct providerId 0 with
  | .error _ => fallthrough
  | .ok product =>
      match findServiceURL product.product.capabilityKeys
          product.productCapabilityValues 0 with
      | some url => .ok url
      | none => fallthrough

/-- Python's `str.lower()` restricted to the ASCII range (addresses are
hex strings, so this agrees with CPython on every value reaching it). -/
def pyLower (s : String) : String := String.mk (s.data.map Char.toLower)

/-- The `options.provider_id is not None` consistency check of
`_resolve_by_data_set_id`. -/
def providerIdCheck (dataSetId : Nat) (dsInfo : DataSetInfo) :
    Option Nat → Except PyErr Unit
  | none => pure ()
  | some pid =>
      if pid ≠ dsInfo.providerId then
        throw (PyErr.valueError
          ("Data set " ++ toString dataSetId ++ " belongs to provider "
            ++ toString dsInfo.providerId
            ++ ", not the requested provider " ++ toString pid))
      else pure ()

/-- The `options.provider_address is not None` consistency check of
`_resolve_by_data_set_id`: only an address the registry actually
resolves can disagree. -/
def providerAddressCheck (dataSetId : Nat) (reg : SPRegistry)
    (dsInfo : DataSetInfo) : Option String → Except PyErr Unit
  | none => pure ()
  | some addr =>
      match reg.getProviderByAddress addr with
      | some providerByAddr =>
          if providerByAddr.providerId ≠ dsInfo.providerId then
            throw (PyErr.valueError
              ("Data set " ++ toString dataSetId ++ " belongs to provider "
                ++ toString dsInfo.providerId
                ++ ", not the requested provider address " ++ addr))
          else pure ()
      | none => pure ()

/-- The `if options is not None` provider-consistency block of
`_resolve_by_data_set_id`: an explicit provider id must equal the
dataset's, and an explicit provider address that the registry resolves
must resolve to the dataset's provider. -/
def providerConsistencyCheck (dataSetId : Nat) (reg : SPRegistry)
    (dsInfo : DataSetInfo) : Option StorageContextOptions → Except PyErr Unit
  | none => pure ()
  | some opts => do
      providerIdCheck dataSetId dsInfo opts.providerId
      providerAddressCheck dataSetId reg dsInfo opts.providerAddress

/-- `StorageContext._resolve_by_data_set_id`.  Address comparison is the
code's `payer.lower() != client_address.lower()`. -/
def resolveByDataSetId (dataSetId : Nat) (clientAddress : String)
    (ws : WarmStorage) (reg : SPRegistry)
    (requestedMetadata : List (String × String))
    (options : Option StorageContextOptions) :
    Except PyErr ProviderSelectionResult := do
  let _ ← ws.validateDataSet dataSetId
  let dsInfo ← ws.getDataSet dataSetId
  if pyLower dsInfo.payer ≠ pyLower clientAddress then
    throw (PyErr.valueError
      ("Data set " ++ toString dataSetId ++ " is not owned by "
        ++ clientAddress ++ " (owned by " ++ dsInfo.payer ++ ")"))
  let _ ← providerConsistencyCheck dataSetId reg dsInfo options
  let provider ←
    match reg.getProvider dsInfo.providerId with
    | none =>
        throw (PyErr.valueError
          ("Provider ID " ++ toString dsInfo.providerId ++ " for data set "
            ++ toString dataSetId ++ " not found"))
    | some p => pure p
  let pdpEndpoint ← getPdpEndpoint reg provider.providerId
  let metadata ← ws.getAllDataSetMetadata dataSetId
  if requestedMetadata ≠ [] ∧ ¬ metadataMatches metadata requestedMetadata then
    throw (PyErr.valueError
      ("Data set " ++ toString dataSetId
        ++ " metadata does not match requested metadata"))
  pure { provider := provider, pdpEndpoint := pdpEndpoint,
         dataSetId := (dataSetId : Int),
         clientDataSetId := dsInfo.clientDataSetId,
         isExisting := true, metadata := metadata }

/-- The dataset-reuse loop of `_resolve_by_provider_id`: first client
dataset on this provider with `pdp_end_epoch == 0` and exactly matching
metadata; an exception from the metadata read propagates (the caller
swallows it). -/
def findMatchingDataSet (ws : WarmStorage) (providerId : Nat)
    (requestedMetadata : List (String × String)) :
    List DataSetInfo → Except PyErr (Option (DataSetInfo × List (String × String)))
  | [] => .ok none
  | ds :: rest =>
      if ds.providerId = providerId ∧ ds.pdpEndEpoch = 0 then
        match ws.getAllDataSetMetadata ds.dataSetId with
        | .error e => .error e
        | .ok dsMetadata =>
            if metadataMatches dsMetadata requestedMetadata then
              .ok (some (ds, dsMetadata))
            else findMatchingDataSet ws providerId requestedMetadata rest
      else findMatchingDataSet ws providerId requestedMetadata rest

/-- The `try: ... except Exception: pass` block of
`_resolve_by_provider_id`: list the client's datasets and search them;
any exception anywhere in the block is swallowed, leaving no match. -/
def searchExistingDataSet (ws : WarmStorage) (providerId : Nat)
    (requestedMetadata : List (String × String)) (clientAddress : String) :
    Option (DataSetInfo × List (String × String)) :=
  match ws.getClientDataSets clientAddress with
  | .error _ => none
  | .ok datasets =>
      match findMatchingDataSet ws providerId requestedMetadata datasets with
      | .error _ => none
      | .ok r => r

/-- `StorageContext._resolve_by_provider_id`: look the provider up,
resolve its PDP endpoint, then either force creation, reuse a matching
dataset, or return the `-1` creation sentinel.  The dataset search is
wrapped in `try/except: pass`, so any failure there falls through to the
sentinel.  Note that no activity or approval check appears anywhere. -/
def resolveByProviderId (providerId : Nat) (clientAddress : String)
    (ws : WarmStorage) (reg : SPRegistry)
    (requestedMetadata : List (String × String)) (forceCreate : Bool) :
    Except PyErr ProviderSelectionResult :=
  match reg.getProvider providerId with
  | none =>
      .error (.valueError
        ("Provider ID " ++ toString providerId ++ " not found in registry"))
  | some provider =>
      match getPdpEndpoint reg providerId with
      | .error e => .error e
      | .ok pdpEndpoint =>
          if forceCreate then
            .ok { provider := provider, pdpEndpoint := pdpEndpoint,
                  dataSetId := -1, clientDataSetId := 0,
                  isExisting := false, metadata := requestedMetadata }
          else
            match searchExistingDataSet ws providerId requestedMetadata
                clientAddress with
            | some (ds, dsMetadata) =>
                .ok { provider := provider, pdpEndpoint := pdpEndpoint,
                      dataSetId := (ds.dataSetId : Int),
                      clientDataSetId := ds.clientDataSetId,
                      isExisting := true, metadata := dsMetadata }
            | none =>
                .ok { provider := provider, pdpEndpoint := pdpEndpoint,
                      dataSetId := -1, clientDataSetId := 0,
                      isExisting := false, metadata := requestedMetadata }

/-! ## PDP server client (`pdp/server.py`)

The HTTP request itself is external; the response (status code, headers,
body text) is an input and the embedded functions perform the client's
response handling. -/

structure CreateDataSetResponse where
  txHash : String
  statusUrl : String
  deriving DecidableEq

structure AddPiecesResponse where
  message : String
  txHash : String
  statusUrl : String
  deriving DecidableEq

/-- The parameters (after `self`) of `PDPServer.create_data_set` as
defined in `pdp/server.py`. -/
def createDataSetParams : List String := ["record_keeper", "extra_data"]

/-- The parameters (after `self`) of `PDPServer.add_pieces` as defined
in `pdp/server.py`. -/
def addPiecesParams : List String :=
  ["data_set_id", "piece_cids", "extra_data"]

/-- The module-level names `pdp/server.py` defines. -/
def pdpServerModuleNames : List String := ["PDPServer", "AsyncPDPServer"]

/-- The names `storage/context.py` imports from `pynapse.pdp.server`
(line `from pynapse.pdp.server import AlreadyExistsError,
IdempotencyError`). -/
def storageContextServerImports : List String :=
  ["AlreadyExistsError", "IdempotencyError"]

/-- The positional/keyword arguments the repository's own test suite
(`tests/test_idempotency.py`) passes to `PDPServer.create_data_set`. -/
def testCreateDataSetArgs : List String :=
  ["record_keeper", "extra_data", "idempotency_key"]

/-- Response handling of `PDPServer.create_data_set`: any status other
than 201/202 raises a generic `RuntimeError` (409 and 422 included),
then the tx hash is the last `/`-segment of the `Location` header and
must start with `0x`. -/
def createDataSetResp (endpoint : String) (respStatus : Nat)
    (respLocationHeader : Option String) (respText : String) :
    Except PyErr CreateDataSetResponse :=
  if respStatus ≠ 201 ∧ respStatus ≠ 202 then
    .error (.runtimeError
      ("unexpected status " ++ toString respStatus ++ ": " ++ respText))
  else
    match respLocationHeader with
    | none => .error (.runtimeError "missing Location header")
    | some location =>
        let txHash := (location.splitOn "/").getLastD ""
        if ¬ txHash.startsWith "0x" then
          .error (.runtimeError
            ("invalid txHash in Location header: " ++ txHash))
        else
          .ok { txHash := txHash, statusUrl := endpoint ++ location }

/-- Response handling of `PDPServer.add_pieces`: same 201/202 gate and
`Location` parsing, without the `0x` check. -/
def addPiecesResp (endpoint : String) (dataSetId : Nat) (respStatus : Nat)
    (respLocationHeader : Option String) (respText : String) :
    Except PyErr AddPiecesResponse :=
  if respStatus ≠ 201 ∧ respStatus ≠ 202 then
    .error (.runtimeError
      ("unexpected status " ++ toString respStatus ++ ": " ++ respText))
  else
    match respLocationHeader with
    | none => .error (.runtimeError "missing Location header")
    | some location =>
        let txHash := (location.splitOn "/").getLastD ""
        .ok { message := "Pieces added to data set ID " ++ toString dataSetId,
              txHash := txHash, statusUrl := endpoint ++ location }

/-! ## Multi-provider retriever (`retriever/chain.py`,
`retriever/async_chain.py`)

HTTP calls become oracle functions of `(endpoint, pieceCid)`.  The
parallel race's completion order is an input (`completionOrder`): the
code takes results in `as_completed` order, which is a permutation of
the candidate list chosen by the scheduler. -/

structure RetrieverEnv where
  getProvider : Nat → Except PyErr (Option ProviderInfo)
  getProviderByAddress : String → Option ProviderInfo
  getProviderWithProduct : Nat → Nat → Except PyErr ProviderWithProduct
  getClientDataSetsWithDetails : String → Except PyErr (List EnhancedDataSetInfo)
  findPiece : String → String → Except PyErr Nat
  downloadPiece : String → String → Except PyErr (Nat × List Nat)

/-- `ChainRetriever._get_pdp_endpoint` (product type 1; errors and a
missing `serviceURL` both yield `None`). -/
def retrieverGetPdpEndpoint (env : RetrieverEnv) (providerId : Nat) :
    Option String :=
  match env.getProviderWithProduct providerId 1 with
  | .error _ => none
  | .ok product =>
      findServiceURL product.product.capabilityKeys
        product.productCapabilityValues 0

/-- First-occurrence deduplication for `list(set(...))`.  CPython's set
iteration order is unspecified; every property proved below is
insensitive to the order of this list. -/
def dedupNat : List Nat → List Nat
  | [] => []
  | x :: xs => if x ∈ xs then dedupNat xs else x :: dedupNat xs

/-- The provider-lookup loop of `_find_providers`: keep the active
providers, dropping lookup failures and inactive entries. -/
def lookupActiveProviders (env : RetrieverEnv) : List Nat → List ProviderInfo
  | [] => []
  | pid :: rest =>
      match env.getProvider pid with
      | .error _ => lookupActiveProviders env rest
      | .ok none => lookupActiveProviders env rest
      | .ok (some p) =>
          if p.isActive then p :: lookupActiveProviders env rest
          else lookupActiveProviders env rest

/-- `ChainRetriever._find_providers`: explicit provider address short
circuit, else the client's live datasets with pieces give the candidate
provider ids. -/
def findProviders (env : RetrieverEnv) (clientAddress : String)
    (providerAddress : Option String) : Except PyErr (List ProviderInfo) :=
  match providerAddress with
  | some addr =>
      match env.getProviderByAddress addr with
      | none =>
          .error (.valueError ("Provider " ++ addr ++ " not found in registry"))
      | some provider => .ok [provider]
  | none => do
      let datasets ← env.getClientDataSetsWithDetails clientAddress
      let validDatasets := datasets.filter
        (fun ds => ds.isLive ∧ ds.activePieceCount > 0)
      if validDatasets.isEmpty then
        throw (PyErr.valueError
          ("No active datasets with data found for client " ++ clientAddress))
      let uniqueProviderIds :=
        dedupNat (validDatasets.map (fun ds => ds.providerId))
      let providers := lookupActiveProviders env uniqueProviderIds
      if providers.isEmpty then
        throw (PyErr.valueError "No valid providers found")
      pure providers

/-- `ChainRetriever._try_fetch_from_provider`: endpoint lookup, a find
probe that must answer 200, then the download; every failure path yields
`None`. -/
def tryFetchFromProvider (env : RetrieverEnv) (provider : ProviderInfo)
    (pieceCid : String) : Option (List Nat) :=
  match retrieverGetPdpEndpoint env provider.providerId with
  | none => none
  | some endpoint =>
      match env.findPiece endpoint pieceCid with
      | .error _ => none
      | .ok findStatus =>
          if findStatus ≠ 200 then none
          else
            match env.downloadPiece endpoint pieceCid with
            | .error _ => none
            | .ok (downloadStatus, content) =>
                if downloadStatus = 200 then some content else none

/-- First success along a candidate order: this is literally the
sequential loop, and also the parallel branch read along the realized
completion order (a candidate whose task yields `None` never wins). -/
def firstSuccess (env : RetrieverEnv) (pieceCid : String) :
    List ProviderInfo → Option (List Nat)
  | [] => none
  | p :: rest =>
      match tryFetchFromProvider env p pieceCid with
      | some data => some data
      | none => firstSuccess env pieceCid rest

/-- The race outcome of the sync parallel branch (`if parallel and
len(providers) > 1`): the first completion carrying data wins, read
along the realized completion order; otherwise the sequential loop over
the candidate list. -/
def raceAttempt (env : RetrieverEnv) (pieceCid : String) (parallel : Bool)
    (completionOrder providers : List ProviderInfo) : Option (List Nat) :=
  if parallel ∧ providers.length > 1 then
    firstSuccess env pieceCid completionOrder
  else
    firstSuccess env pieceCid providers

/-- The body of the sync `fetch_piece` once the candidates are known. -/
def fetchPieceWithProviders (env : RetrieverEnv)
    (pieceCid clientAddress : String) (providerAddress : Option String)
    (parallel : Bool) (completionOrder : List ProviderInfo)
    (fallback : Option (String → String → Option String → Except PyErr (List Nat)))
    (providers : List ProviderInfo) : Except PyErr (List Nat) :=
  match raceAttempt env pieceCid parallel completionOrder providers with
  | some data => .ok data
  | none =>
      match fallback with
      | some f => f pieceCid clientAddress providerAddress
      | none =>
          .error (.valueError
            ("Failed to retrieve piece " ++ pieceCid ++ " from any provider"))

/-- `ChainRetriever.fetch_piece` (sync).  A `ValueError` from
`_find_providers` goes to the fallback when one is configured; the
parallel branch races when more than one candidate exists, reading
completions in `completionOrder`; when nothing yields the piece the
fallback is tried with the same arguments, else a `ValueError` naming
the piece CID is raised. -/
def fetchPiece (env : RetrieverEnv) (pieceCid clientAddress : String)
    (providerAddress : Option String) (parallel : Bool)
    (completionOrder : List ProviderInfo)
    (fallback : Option (String → String → Option String → Except PyErr (List Nat))) :
    Except PyErr (List Nat) :=
  match findProviders env clientAddress providerAddress with
  | .error e =>
      match fallback with
      | some f => f pieceCid clientAddress providerAddress
      | none => .error e
  | .ok providers =>
      fetchPieceWithProviders env pieceCid clientAddress providerAddress
        parallel completionOrder fallback providers

/-- The async parallel branch races whenever `parallel` is set, even for
a single candidate. -/
def asyncRaceAttempt (env : RetrieverEnv) (pieceCid : String)
    (parallel : Bool) (completionOrder providers : List ProviderInfo) :
    Option (List Nat) :=
  if parallel then firstSuccess env pieceCid completionOrder
  else firstSuccess env pieceCid providers

/-- The body of the async `fetch_piece` once the candidates are known. -/
def asyncFetchPieceWithProviders (env : RetrieverEnv)
    (pieceCid clientAddress : String) (providerAddress : Option String)
    (parallel : Bool) (completionOrder : List ProviderInfo)
    (fallback : Option (String → String → Option String → Except PyErr (List Nat)))
    (providers : List ProviderInfo) : Except PyErr (List Nat) :=
  match asyncRaceAttempt env pieceCid parallel completionOrder providers with
  | some data => .ok data
  | none =>
      match fallback with
      | some f => f pieceCid clientAddress providerAddress
      | none =>
          .error (.valueError
            ("Piece " ++ pieceCid ++ " not found on any provider"))

/-- `AsyncChainRetriever.fetch_piece`: same discovery and race, but a
discovery error propagates without consulting the fallback, the parallel
branch races even for a single candidate, and the final error message
differs. -/
def asyncFetchPiece (env : RetrieverEnv) (pieceCid clientAddress : String)
    (providerAddress : Option String) (parallel : Bool)
    (completionOrder : List ProviderInfo)
    (fallback : Option (String → String → Option String → Except PyErr (List Nat))) :
    Except PyErr (List Nat) :=
  match findProviders env clientAddress providerAddress with
  | .error e => .error e
  | .ok providers =>
      asyncFetchPieceWithProviders env pieceCid clientAddress providerAddress
        parallel completionOrder fallback providers

/-! ## Upload size validation (`storage/context.py`) -/

def MIN_UPLOAD_SIZE : Nat := 256
def MAX_UPLOAD_SIZE : Nat := 254 * 1024 * 1024

/-- `StorageContext._validate_size`. -/
def validateSize (sizeBytes : Nat) : Except PyErr Unit :=
  if sizeBytes < MIN_UPLOAD_SIZE then
    .error (.valueError
      ("Data size " ++ toString sizeBytes
        ++ " bytes is below minimum allowed size of "
        ++ toString MIN_UPLOAD_SIZE ++ " bytes"))
  else if sizeBytes > MAX_UPLOAD_SIZE then
    .error (.valueError
      ("Data size " ++ toString sizeBytes
        ++ " bytes exceeds maximum allowed size of "
        ++ toString MAX_UPLOAD_SIZE ++ " bytes ("
        ++ toString (MAX_UPLOAD_SIZE / 1024 / 1024) ++ " MiB)"))
  else .ok ()

/-- `core/piece/PieceCidInfo`. -/
structure PieceCidInfo where
  pieceCid : String
  pieceCidV1 : String
  payloadSize : Nat
  unpaddedPieceSize : Nat
  paddedPieceSize : Nat
  deriving DecidableEq

/-- The observable steps `StorageContext.upload` performs after size
validation, in program order. -/
inductive UploadStep where
  | calculatePieceCidStep
  | uploadPieceStep
  | waitForPieceStep
  | addPiecesStep
  deriving DecidableEq

/-- The collaborators `upload` touches: the stream-commp digesting
helper and the PDP server; the SHA-256 idempotency key digest is also an
abstract oracle. -/
structure UploadEnv where
  calculatePieceCid : List Nat → Except PyErr PieceCidInfo
  uploadPiece : List Nat → String → Nat → Except PyErr Unit
  waitForPiece : String → Except PyErr Unit
  signAddPiecesExtraData : Nat → List (String × List (String × String)) → String
  addPieces : Nat → List String → String → String → Except PyErr (Option String)
  generateIdempotencyKey : String → List String → String

structure UploadResult where
  pieceCid : String
  size : Nat
  txHash : Option String
  deriving DecidableEq

/-- `StorageContext.upload`, instrumented with the list of steps that
were reached: validate the size first, then compute the piece CID,
upload the bytes, wait for indexing, and add the piece with an
idempotency key, treating `AlreadyExistsError` as success with no tx
hash (the mock-response branch).  Progress callbacks are omitted (their
exceptions are swallowed and they return nothing). -/
def upload (env : UploadEnv) (dataSetId clientDataSetId : Nat)
    (data : List Nat) (metadata : List (String × String)) :
    List UploadStep × Except PyErr UploadResult :=
  match validateSize data.length with
  | .error e => ([], .error e)
  | .ok () =>
      match env.calculatePieceCid data with
      | .error e => ([.calculatePieceCidStep], .error e)
      | .ok info =>
          match env.uploadPiece data info.pieceCid info.paddedPieceSize with
          | .error e =>
              ([.calculatePieceCidStep, .uploadPieceStep], .error e)
          | .ok () =>
              match env.waitForPiece info.pieceCid with
              | .error e =>
                  ([.calculatePieceCidStep, .uploadPieceStep,
                    .waitForPieceStep], .error e)
              | .ok () =>
                  let pieces := [(info.pieceCid, metadata)]
                  let extraData :=
                    env.signAddPiecesExtraData clientDataSetId pieces
                  let pieceMetadataStr :=
                    toString (metadata.mergeSort (fun a b => a.1 ≤ b.1))
                  let idempotencyKey := env.generateIdempotencyKey "add_pieces"
                    [toString dataSetId, info.pieceCid, pieceMetadataStr]
                  let steps := [UploadStep.calculatePieceCidStep,
                    .uploadPieceStep, .waitForPieceStep, .addPiecesStep]
                  match env.addPieces dataSetId [info.pieceCid] extraData
                      idempotencyKey with
                  | .error (.alreadyExistsError _) =>
                      (steps, .ok { pieceCid := info.pieceCid,
                                    size := info.payloadSize, txHash := none })
                  | .error e => (steps, .error e)
                  | .ok txHash =>
                      (steps, .ok { pieceCid := info.pieceCid,
                                    size := info.payloadSize,
                                    txHash := txHash })

/-! ## Claim C4: metadata matching -/

/-- Claim C4 (counterexample).  The claim asserts `matches(M, {})` is true for
every `M`; on the code, a nonempty `M` against the empty request fails
the length check first and yields `false`. -/
theorem C4_matches_empty_request_counterexample :
    metadataMatches [("a", "1")] [] = false := by decide

/-- Claim C4 (amended).  `matches(M, R)` is true iff `len(M) == len(R)` and
every key of `R` maps to the same value in `M`; consequently
`matches(M, {})` is true exactly when `M` itself is empty, not for
every `M`. -/
theorem C4_metadata_matches_amended (m r : List (String × String)) :
    (metadataMatches m r = true ↔
      m.length = r.length ∧ ∀ kv ∈ r, dictGet m kv.1 = some kv.2)
    ∧ (metadataMatches m [] = true ↔ m = []) := by
  constructor
  · unfold metadataMatches
    split
    · next h => simp only [Bool.false_eq_true, false_iff]
                intro hc
                exact h hc.1
    · next h =>
      split
      · next hr =>
        simp only [List.isEmpty_iff] at hr
        subst hr
        simp only [true_iff]
        refine ⟨by omega, ?_⟩
        intro kv hkv
        simp at hkv
      · next hr =>
        simp only [List.all_eq_true, decide_eq_true_eq]
        constructor
        · intro hall
          exact ⟨by omega, hall⟩
        · intro hc
          exact hc.2
  · unfold metadataMatches
    split
    · next h =>
      simp only [Bool.false_eq_true, false_iff]
      intro hc
      subst hc
      simp at h
    · next h =>
      simp only [List.length_nil] at h
      simp only [List.isEmpty_nil, if_true, true_iff]
      exact List.length_eq_zero.mp (by omega)

/-- Claim C4 (witness for the amended theorem at concrete maps). -/
theorem C4_metadata_matches_amended_witness :
    metadataMatches [("a", "1")] [("a", "1")] = true ∧
      metadataMatches [] [] = true := by
  constructor
  · exact (C4_metadata_matches_amended [("a", "1")] [("a", "1")]).1.2
      ⟨rfl, by intro kv hkv; simp at hkv; subst hkv; rfl⟩
  · exact (C4_metadata_matches_amended [] []).2.2 rfl

/-! ## Claim C10: upload size validation -/

/-- Claim C10: `upload` raises on sizes below 256 bytes or above 254 MiB
before any piece-CID computation or PDP call (the step trace is empty),
and sizes within the bounds pass validation. -/
theorem C10_upload_size_validation (env : UploadEnv)
    (dataSetId clientDataSetId : Nat) (data : List Nat)
    (metadata : List (String × String)) :
    (data.length < 256 →
      upload env dataSetId clientDataSetId data metadata =
        ([], .error (.valueError
          ("Data size " ++ toString data.length
            ++ " bytes is below minimum allowed size of "
            ++ toString 256 ++ " bytes"))))
    ∧ (data.length > 254 * 1024 * 1024 →
      upload env dataSetId clientDataSetId data metadata =
        ([], .error (.valueError
          ("Data size " ++ toString data.length
            ++ " bytes exceeds maximum allowed size of "
            ++ toString (254 * 1024 * 1024) ++ " bytes ("
            ++ toString (254 * 1024 * 1024 / 1024 / 1024) ++ " MiB)"))))
    ∧ (256 ≤ data.length → data.length ≤ 254 * 1024 * 1024 →
      validateSize data.length = .ok ()) := by
  refine ⟨?_, ?_, ?_⟩
  · intro h
    unfold upload validateSize MIN_UPLOAD_SIZE
    rw [if_pos h]
  · intro h
    unfold upload validateSize MIN_UPLOAD_SIZE MAX_UPLOAD_SIZE
    rw [if_neg (by omega), if_pos (by omega)]
  · intro h1 h2
    unfold validateSize MIN_UPLOAD_SIZE MAX_UPLOAD_SIZE
    rw [if_neg (by omega), if_neg (by omega)]

/-- An inert collaborator record used to instantiate upload theorems. -/
def trivialUploadEnv : UploadEnv where
  calculatePieceCid := fun _ => .error .indexError
  uploadPiece := fun _ _ _ => .ok ()
  waitForPiece := fun _ => .ok ()
  signAddPiecesExtraData := fun _ _ => ""
  addPieces := fun _ _ _ _ => .ok none
  generateIdempotencyKey := fun _ _ => ""

/-- Claim C10 (witness): a 100-byte upload is rejected with an empty step
trace, and a 300-byte size passes validation. -/
theorem C10_upload_size_validation_witness :
    upload trivialUploadEnv 1 2 (List.replicate 100 7) [] =
      ([], .error (.valueError
        ("Data size " ++ toString (List.replicate (100 : Nat) (7 : Nat)).length
          ++ " bytes is below minimum allowed size of "
          ++ toString 256 ++ " bytes")))
    ∧ validateSize (List.replicate (300 : Nat) (7 : Nat)).length = .ok () := by
  constructor
  · exact (C10_upload_size_validation trivialUploadEnv 1 2
      (List.replicate 100 7) []).1 (by simp)
  · exact (C10_upload_size_validation trivialUploadEnv 1 2
      (List.replicate 300 7) []).2.2
      (by rw [List.length_replicate]; norm_num)
      (by rw [List.length_replicate]; norm_num)

/-! ## Claim C7: idempotency surface of the PDP chain-write calls -/

/-- Claim C7 (code bug).  The claim — backed by the repository's own tests in
`tests/test_idempotency.py` and by the caller in `storage/context.py` —
requires `create_data_set` / `add_pieces` to accept an optional
idempotency key and to distinguish "already exists" (409) from
"conflicting key" (422) from transient errors.  The code in
`pdp/server.py` has neither the parameter nor the error classes, and
collapses 409 and 422 into the same generic `RuntimeError`. -/
theorem C7_idempotency_contract_missing :
    createDataSetParams.contains "idempotency_key" = false
    ∧ addPiecesParams.contains "idempotency_key" = false
    ∧ storageContextServerImports.all
        (fun n => ! pdpServerModuleNames.contains n) = true
    ∧ testCreateDataSetArgs.contains "idempotency_key" = true
    ∧ createDataSetResp "http://sp" 409 none "Dataset already exists" =
        .error (.runtimeError "unexpected status 409: Dataset already exists")
    ∧ createDataSetResp "http://sp" 422 none "Idempotency key conflict" =
        .error (.runtimeError "unexpected status 422: Idempotency key conflict")
    ∧ addPiecesResp "http://sp" 123 409 none "Some pieces already exist" =
        .error (.runtimeError "unexpected status 409: Some pieces already exist") := by
  refine ⟨by decide, by decide, by decide, by decide, by rfl, by rfl, by rfl⟩

/-! ## Claim C6: resolution by explicit provider id -/

/-- A registry entry for an inactive provider, used to exhibit the
missing approval check. -/
def inactiveProvider7 : ProviderInfo where
  providerId := 7
  serviceProvider := "0xsp7"
  payee := "0xpayee7"
  name := "sp7"
  descr := ""
  isActive := false

def c6Registry : SPRegistry where
  getProvider := fun pid => if pid = 7 then some inactiveProvider7 else none
  getProviderByAddress := fun _ => none
  getProviderWithProduct := fun pid _ =>
    if pid = 7 then
      .ok { product := { capabilityKeys := ["serviceURL"] },
            productCapabilityValues := ["https://sp7.example"] }
    else .error .indexError

/-- A warm-storage collaborator on which no provider at all is approved
(`get_approved_provider_ids` answers the empty list). -/
def c6WarmStorage : WarmStorage where
  validateDataSet := fun _ => .ok ()
  getDataSet := fun _ => .error .indexError
  getAllDataSetMetadata := fun _ => .ok []
  getClientDataSets := fun _ => .ok []
  getApprovedProviderIds := .ok []

/-- Claim C6 (counterexample).  Provider 7 is inactive and the storage service
approves nobody, yet resolution with the explicit provider id succeeds
with the creation sentinel instead of failing with an approval error:
`_resolve_by_provider_id` never consults activity or approval. -/
theorem C6_no_approval_check_counterexample :
    resolveByProviderId 7 "0xclient" c6WarmStorage c6Registry [] false =
      .ok { provider := inactiveProvider7, pdpEndpoint := "https://sp7.example",
            dataSetId := -1, clientDataSetId := 0, isExisting := false,
            metadata := [] } := by
  rfl

/-- Claim C6 (amended).  Resolution by explicit provider id performs no
activity or approval verification: it fails (with a plain `ValueError`,
not an approval error listing approved providers) exactly when the
provider id is absent from the registry or no PDP endpoint can be
found, and succeeds for any provider with a resolvable endpoint even if
inactive and unapproved. -/
theorem C6_resolve_by_provider_amended (providerId : Nat)
    (clientAddress : String) (ws : WarmStorage) (reg : SPRegistry)
    (requestedMetadata : List (String × String)) (forceCreate : Bool) :
    (reg.getProvider providerId = none →
      resolveByProviderId providerId clientAddress ws reg requestedMetadata
          forceCreate =
        .error (.valueError
          ("Provider ID " ++ toString providerId ++ " not found in registry")))
    ∧ (∀ p, reg.getProvider providerId = some p →
        ∀ e, getPdpEndpoint reg providerId = .error e →
          resolveByProviderId providerId clientAddress ws reg requestedMetadata
            forceCreate = .error e)
    ∧ (∀ p, reg.getProvider providerId = some p →
        ∀ url, getPdpEndpoint reg providerId = .ok url →
          isOkE (resolveByProviderId providerId clientAddress ws reg
            requestedMetadata forceCreate) = true) := by
  refine ⟨?_, ?_, ?_⟩
  · intro h
    unfold resolveByProviderId
    rw [h]
  · intro p hp e he
    unfold resolveByProviderId
    rw [hp, he]
  · intro p hp url hurl
    unfold resolveByProviderId
    rw [hp, hurl]
    cases forceCreate with
    | true => rfl
    | false =>
        cases hs : searchExistingDataSet ws providerId requestedMetadata
            clientAddress with
        | none => rfl
        | some pair =>
            obtain ⟨ds, dsMetadata⟩ := pair
            rfl

/-- Claim C6 (witness for the amended theorem): the not-found branch at
provider id 9, and the success branch at the inactive, unapproved
provider 7. -/
theorem C6_resolve_by_provider_amended_witness :
    resolveByProviderId 9 "0xclient" c6WarmStorage c6Registry [] false =
      .error (.valueError ("Provider ID " ++ toString 9 ++ " not found in registry"))
    ∧ isOkE (resolveByProviderId 7 "0xclient" c6WarmStorage c6Registry [] false)
        = true := by
  constructor
  · exact (C6_resolve_by_provider_amended 9 "0xclient" c6WarmStorage c6Registry
      [] false).1 (by rfl)
  · exact (C6_resolve_by_provider_amended 7 "0xclient" c6WarmStorage c6Registry
      [] false).2.2 inactiveProvider7 (by rfl) "https://sp7.example" (by rfl)

/-! ## Claim C5: resolution by explicit dataset id -/

theorem exBind_ok {ε α β : Type} (a : α) (f : α → Except ε β) :
    (Except.ok a >>= f) = f a := rfl

theorem exBind_error {ε α β : Type} (e : ε) (f : α → Except ε β) :
    ((Except.error e : Except ε α) >>= f) = .error e := rfl

theorem exBind_pure {ε α β : Type} (a : α) (f : α → Except ε β) :
    ((pure a : Except ε α) >>= f) = f a := rfl

/-- Claim C5: with an explicit dataset id (and no forced creation), a payer
different from the caller (the code compares lower-cased addresses)
always stops resolution with the ownership `ValueError`; with the payer
matching, an explicitly given provider id that differs from the
dataset's provider, or an explicitly given provider address that the
registry resolves to a different provider, always stops resolution with
the corresponding consistency `ValueError` — a different message, never
a silent pick of either provider. -/
theorem C5_resolve_by_dataset_id_checks (dataSetId : Nat)
    (clientAddress : String) (ws : WarmStorage) (reg : SPRegistry)
    (requestedMetadata : List (String × String))
    (opts : StorageContextOptions) (ds : DataSetInfo)
    (hval : ws.validateDataSet dataSetId = .ok ())
    (hget : ws.getDataSet dataSetId = .ok ds) :
    (pyLower ds.payer ≠ pyLower clientAddress →
      resolveByDataSetId dataSetId clientAddress ws reg requestedMetadata
          (some opts) =
        .error (.valueError
          ("Data set " ++ toString dataSetId ++ " is not owned by "
            ++ clientAddress ++ " (owned by " ++ ds.payer ++ ")")))
    ∧ (pyLower ds.payer = pyLower clientAddress →
      ∀ pid, opts.providerId = some pid → pid ≠ ds.providerId →
        resolveByDataSetId dataSetId clientAddress ws reg requestedMetadata
            (some opts) =
          .error (.valueError
            ("Data set " ++ toString dataSetId ++ " belongs to provider "
              ++ toString ds.providerId ++ ", not the requested provider "
              ++ toString pid)))
    ∧ (pyLower ds.payer = pyLower clientAddress →
      (opts.providerId = none ∨ opts.providerId = some ds.providerId) →
      ∀ addr pByAddr, opts.providerAddress = some addr →
        reg.getProviderByAddress addr = some pByAddr →
        pByAddr.providerId ≠ ds.providerId →
        resolveByDataSetId dataSetId clientAddress ws reg requestedMetadata
            (some opts) =
          .error (.valueError
            ("Data set " ++ toString dataSetId ++ " belongs to provider "
              ++ toString ds.providerId
              ++ ", not the requested provider address " ++ addr))) := by
  refine ⟨?_, ?_, ?_⟩
  · intro howner
    unfold resolveByDataSetId
    rw [hval, exBind_ok, hget, exBind_ok, if_pos howner]
    rfl
  · intro howner pid hpid hne
    have hc : providerConsistencyCheck dataSetId reg ds (some opts) =
        .error (.valueError
          ("Data set " ++ toString dataSetId ++ " belongs to provider "
            ++ toString ds.providerId ++ ", not the requested provider "
            ++ toString pid)) := by
      simp only [providerConsistencyCheck]
      rw [hpid]
      simp only [providerIdCheck]
      rw [if_pos hne]
      rfl
    unfold resolveByDataSetId
    rw [hval, exBind_ok, hget, exBind_ok, if_neg (not_not_intro howner)]
    rw [exBind_pure, hc]
    rfl
  · intro howner hpid addr pByAddr haddr hreg hne
    have hc : providerConsistencyCheck dataSetId reg ds (some opts) =
        .error (.valueError
          ("Data set " ++ toString dataSetId ++ " belongs to provider "
            ++ toString ds.providerId
            ++ ", not the requested provider address " ++ addr)) := by
      simp only [providerConsistencyCheck]
      rcases hpid with h | h
      · rw [h]
        simp only [providerIdCheck, exBind_pure]
        rw [haddr]
        simp only [providerAddressCheck]
        rw [hreg]
        simp only [if_pos hne]
        rfl
      · rw [h]
        simp only [providerIdCheck]
        rw [if_neg (not_not_intro rfl), exBind_pure, haddr]
        simp only [providerAddressCheck]
        rw [hreg]
        simp only [if_pos hne]
        rfl
    unfold resolveByDataSetId
    rw [hval, exBind_ok, hget, exBind_ok, if_neg (not_not_intro howner)]
    rw [exBind_pure, hc]
    rfl

/-- A concrete environment for the C5 witness: dataset 42 is owned by
`0xBob` on provider 3. -/
def c5DataSet42 : DataSetInfo where
  payer := "0xBob"
  clientDataSetId := 5
  pdpEndEpoch := 0
  providerId := 3
  dataSetId := 42

def c5WarmStorage : WarmStorage where
  validateDataSet := fun _ => .ok ()
  getDataSet := fun dsId => if dsId = 42 then .ok c5DataSet42 else .error .indexError
  getAllDataSetMetadata := fun _ => .ok []
  getClientDataSets := fun _ => .ok [c5DataSet42]
  getApprovedProviderIds := .ok [3]

def c5Provider (i : Nat) : ProviderInfo where
  providerId := i
  serviceProvider := "0xsp"
  payee := "0xpayee"
  name := "sp"
  descr := ""
  isActive := true

def c5Registry : SPRegistry where
  getProvider := fun pid => some (c5Provider pid)
  getProviderByAddress := fun addr => if addr = "0xother" then some (c5Provider 9) else none
  getProviderWithProduct := fun _ _ =>
    .ok { product := { capabilityKeys := ["serviceURL"] },
          productCapabilityValues := ["https://sp.example"] }

/-- Claim C5 (witness): caller `0xalice` is rejected with the ownership error
on Bob's dataset 42; owner `0xbob` (case-insensitively equal to the
payer `0xBob`) asking for provider 4 is rejected with the provider
consistency error, and asking for address `0xother` (provider 9) is
rejected with the address consistency error. -/
theorem C5_resolve_by_dataset_id_checks_witness :
    resolveByDataSetId 42 "0xalice" c5WarmStorage c5Registry []
        (some { providerId := none, providerAddress := none }) =
      .error (.valueError
        ("Data set " ++ toString 42 ++ " is not owned by " ++ "0xalice"
          ++ " (owned by " ++ "0xBob" ++ ")"))
    ∧ resolveByDataSetId 42 "0xbob" c5WarmStorage c5Registry []
        (some { providerId := some 4, providerAddress := none }) =
      .error (.valueError
        ("Data set " ++ toString 42 ++ " belongs to provider " ++ toString 3
          ++ ", not the requested provider " ++ toString 4))
    ∧ resolveByDataSetId 42 "0xbob" c5WarmStorage c5Registry []
        (some { providerId := none, providerAddress := some "0xother" }) =
      .error (.valueError
        ("Data set " ++ toString 42 ++ " belongs to provider " ++ toString 3
          ++ ", not the requested provider address " ++ "0xother")) := by
  refine ⟨?_, ?_, ?_⟩
  · exact (C5_resolve_by_dataset_id_checks 42 "0xalice" c5WarmStorage
      c5Registry [] { providerId := none, providerAddress := none }
      c5DataSet42 rfl rfl).1 (by decide)
  · exact (C5_resolve_by_dataset_id_checks 42 "0xbob" c5WarmStorage
      c5Registry [] { providerId := some 4, providerAddress := none }
      c5DataSet42 rfl rfl).2.1 (by decide) 4 rfl (by decide)
  · exact (C5_resolve_by_dataset_id_checks 42 "0xbob" c5WarmStorage
      c5Registry [] { providerId := none, providerAddress := some "0xother" }
      c5DataSet42 rfl rfl).2.2 (by decide) (Or.inl rfl) "0xother"
      (c5Provider 9) rfl rfl (by decide)

/-! ## Claim C8: retrieval fallback and exhaustion error -/

theorem firstSuccess_eq_none (env : RetrieverEnv) (pieceCid : String)
    (l : List ProviderInfo)
    (h : ∀ p ∈ l, tryFetchFromProvider env p pieceCid = none) :
    firstSuccess env pieceCid l = none := by
  induction l with
  | nil => rfl
  | cons p rest ih =>
      unfold firstSuccess
      rw [h p (List.mem_cons_self p rest)]
      exact ih (fun q hq => h q (List.mem_cons_of_mem p hq))

/-- Claim C8 (amended).  When provider discovery succeeds but no candidate
yields the piece (in either mode, under any completion order of the
race), a configured fallback is invoked with the same three arguments;
with no fallback, the sync retriever raises
`ValueError("Failed to retrieve piece <cid> from any provider")` and the
async retriever `ValueError("Piece <cid> not found on any provider")` —
each naming the piece identifier but neither naming the number of
providers tried.  The sync retriever also delegates a discovery error to
the fallback. -/
theorem C8_retrieval_exhaustion_amended (env : RetrieverEnv)
    (pieceCid clientAddress : String) (providerAddress : Option String)
    (parallel : Bool) (completionOrder providers : List ProviderInfo)
    (fallback : Option (String → String → Option String → Except PyErr (List Nat)))
    (hfind : findProviders env clientAddress providerAddress = .ok providers)
    (hperm : completionOrder.Perm providers)
    (hfail : ∀ p ∈ providers, tryFetchFromProvider env p pieceCid = none) :
    (∀ f, fallback = some f →
      fetchPiece env pieceCid clientAddress providerAddress parallel
          completionOrder fallback = f pieceCid clientAddress providerAddress
      ∧ asyncFetchPiece env pieceCid clientAddress providerAddress parallel
          completionOrder fallback = f pieceCid clientAddress providerAddress)
    ∧ (fallback = none →
      fetchPiece env pieceCid clientAddress providerAddress parallel
          completionOrder fallback =
        .error (.valueError
          ("Failed to retrieve piece " ++ pieceCid ++ " from any provider"))
      ∧ asyncFetchPiece env pieceCid clientAddress providerAddress parallel
          completionOrder fallback =
        .error (.valueError
          ("Piece " ++ pieceCid ++ " not found on any provider")))
    ∧ (∀ e f, findProviders env clientAddress providerAddress = .error e →
      fallback = some f →
      fetchPiece env pieceCid clientAddress providerAddress parallel
          completionOrder fallback = f pieceCid clientAddress providerAddress) := by
  have hco : firstSuccess env pieceCid completionOrder = none :=
    firstSuccess_eq_none env pieceCid completionOrder
      (fun p hp => hfail p (hperm.mem_iff.mp hp))
  have hpr : firstSuccess env pieceCid providers = none :=
    firstSuccess_eq_none env pieceCid providers hfail
  have hra : raceAttempt env pieceCid parallel completionOrder providers
      = none := by
    unfold raceAttempt
    split
    · exact hco
    · exact hpr
  have hara : asyncRaceAttempt env pieceCid parallel completionOrder providers
      = none := by
    unfold asyncRaceAttempt
    split
    · exact hco
    · exact hpr
  refine ⟨?_, ?_, ?_⟩
  · intro f hf
    constructor
    · unfold fetchPiece
      rw [hfind]
      show fetchPieceWithProviders env pieceCid clientAddress providerAddress
        parallel completionOrder fallback providers = _
      unfold fetchPieceWithProviders
      rw [hra, hf]
    · unfold asyncFetchPiece
      rw [hfind]
      show asyncFetchPieceWithProviders env pieceCid clientAddress
        providerAddress parallel completionOrder fallback providers = _
      unfold asyncFetchPieceWithProviders
      rw [hara, hf]
  · intro hf
    constructor
    · unfold fetchPiece
      rw [hfind]
      show fetchPieceWithProviders env pieceCid clientAddress providerAddress
        parallel completionOrder fallback providers = _
      unfold fetchPieceWithProviders
      rw [hra, hf]
    · unfold asyncFetchPiece
      rw [hfind]
      show asyncFetchPieceWithProviders env pieceCid clientAddress
        providerAddress parallel completionOrder fallback providers = _
      unfold asyncFetchPieceWithProviders
      rw [hara, hf]
  · intro e f herr hf
    rw [herr] at hfind
    exact absurd hfind (by simp)

/-- A two-provider environment in which neither provider has the piece
(the find probe answers 404 everywhere). -/
def c8Provider (i : Nat) : ProviderInfo where
  providerId := i
  serviceProvider := "0xsp"
  payee := "0xpayee"
  name := "sp"
  descr := ""
  isActive := true

def c8DataSet (i : Nat) : EnhancedDataSetInfo where
  payer := "0xclient"
  clientDataSetId := i
  pdpEndEpoch := 0
  providerId := i
  dataSetId := i
  activePieceCount := 1
  isLive := true
  isManaged := true

def c8Env : RetrieverEnv where
  getProvider := fun pid =>
    .ok (if pid = 1 ∨ pid = 2 then some (c8Provider pid) else none)
  getProviderByAddress := fun _ => none
  getProviderWithProduct := fun pid _ =>
    .ok { product := { capabilityKeys := ["serviceURL"] },
          productCapabilityValues := ["https://sp" ++ toString pid] }
  getClientDataSetsWithDetails := fun _ => .ok [c8DataSet 1, c8DataSet 2]
  findPiece := fun _ _ => .ok 404
  downloadPiece := fun _ _ => .ok (404, [])

/-- Claim C8 (counterexample).  With two candidate providers, none holding the
piece and no fallback, the fetch fails with
`Failed to retrieve piece piecexyz from any provider` — a message that
contains no digit at all, so it cannot name the number of providers
tried (two), contrary to the claim. -/
theorem C8_error_lacks_provider_count_counterexample :
    fetchPiece c8Env "piecexyz" "0xclient" none true
        [c8Provider 1, c8Provider 2] none =
      .error (.valueError "Failed to retrieve piece piecexyz from any provider")
    ∧ ("Failed to retrieve piece piecexyz from any provider").data.all
        (fun c => ¬ c.isDigit) = true := by
  constructor
  · rfl
  · decide

/-- Claim C8 (witness for the amended theorem, at the same concrete
environment, exercising both the no-fallback error and the fallback
delegation). -/
theorem C8_retrieval_exhaustion_amended_witness :
    fetchPiece c8Env "piecezz" "0xclient" none false
        [c8Provider 1, c8Provider 2] none =
      .error (.valueError
        ("Failed to retrieve piece " ++ "piecezz" ++ " from any provider"))
    ∧ fetchPiece c8Env "piecezz" "0xclient" none false
        [c8Provider 1, c8Provider 2]
        (some (fun cid _ _ => .ok (cid.data.map Char.toNat))) =
      .ok ("piecezz".data.map Char.toNat) := by
  constructor
  · exact ((C8_retrieval_exhaustion_amended c8Env "piecezz" "0xclient" none
      false [c8Provider 1, c8Provider 2] [c8Provider 1, c8Provider 2] none
      rfl (List.Perm.refl _) (by decide)).2.1 rfl).1
  · exact (((C8_retrieval_exhaustion_amended c8Env "piecezz" "0xclient" none
      false [c8Provider 1, c8Provider 2] [c8Provider 1, c8Provider 2]
      (some (fun cid _ _ => .ok (cid.data.map Char.toNat)))
      rfl (List.Perm.refl _) (by decide)).1
      (fun cid _ _ => .ok (cid.data.map Char.toNat)) rfl).1)

/-! ## Codec lemmas: varint structure -/

theorem encodeVarintFuel_congr :
    ∀ fuelA : Nat, ∀ value fuelB : Nat, value ≤ fuelA → value ≤ fuelB →
      encodeVarintFuel fuelA value = encodeVarintFuel fuelB value := by
  intro fuelA
  induction fuelA with
  | zero =>
      intro value fuelB hA _
      interval_cases value
      cases fuelB with
      | zero => rfl
      | succ f => simp [encodeVarintFuel]
  | succ fA ih =>
      intro value fuelB hA hB
      by_cases hv : value < 128
      · cases fuelB with
        | zero =>
            have : value = 0 := by omega
            subst this
            simp [encodeVarintFuel]
        | succ fB => simp [encodeVarintFuel, hv]
      · have h128 : 128 ≤ value := by omega
        cases fuelB with
        | zero => omega
        | succ fB =>
            simp only [encodeVarintFuel, if_neg hv]
            have hdiv : value / 128 ≤ fA := by
              have := Nat.div_lt_self (by omega : 0 < value) (by omega : 1 < 128)
              omega
            have hdiv' : value / 128 ≤ fB := by
              have := Nat.div_lt_self (by omega : 0 < value) (by omega : 1 < 128)
              omega
            rw [ih (value / 128) fB hdiv hdiv']

theorem encodeVarint_small {value : Nat} (h : value < 128) :
    encodeVarint value = [value] := by
  unfold encodeVarint
  cases value with
  | zero => rfl
  | succ v => simp [encodeVarintFuel, h]

theorem encodeVarint_large {value : Nat} (h : 128 ≤ value) :
    encodeVarint value = (value % 128 + 128) :: encodeVarint (value / 128) := by
  unfold encodeVarint
  cases hv : value with
  | zero => omega
  | succ v =>
      simp only [encodeVarintFuel, if_neg (by omega : ¬ v + 1 < 128)]
      have hle : (v + 1) / 128 ≤ v := by
        have := Nat.div_lt_self (by omega : 0 < v + 1) (by omega : 1 < 128)
        omega
      rw [encodeVarintFuel_congr v ((v + 1) / 128) ((v + 1) / 128) hle le_rfl]

theorem and128_eq_zero {b : Nat} (h : b < 128) : b &&& 128 = 0 := by
  have h7 : b.testBit 7 = false := by
    rw [Nat.testBit_to_div_mod]
    simp only [decide_eq_false_iff_not]
    omega
  have := Nat.and_two_pow b 7
  norm_num at this
  rw [this, h7]
  rfl

theorem and128_ne_zero {b : Nat} (hlo : 128 ≤ b) (hhi : b < 256) :
    b &&& 128 ≠ 0 := by
  have h7 : b.testBit 7 = true := by
    rw [Nat.testBit_to_div_mod]
    simp only [decide_eq_true_eq]
    omega
  have := Nat.and_two_pow b 7
  norm_num at this
  rw [this, h7]
  norm_num

/-- Skipping a varint consumes exactly the bytes `_encode_varint`
produced, landing on the rest of the byte string. -/
theorem skipHighBytes_encodeVarint (value : Nat) :
    ∀ rest, skipHighBytes (encodeVarint value ++ rest) = .ok rest := by
  induction value using Nat.strong_induction_on with
  | _ value ih =>
      intro rest
      by_cases h : value < 128
      · rw [encodeVarint_small h]
        simp only [List.cons_append, List.nil_append, skipHighBytes,
          and128_eq_zero h, ne_eq, not_true_eq_false, if_false]
        rfl
      · rw [encodeVarint_large (by omega)]
        have hne := and128_ne_zero
          (by omega : 128 ≤ value % 128 + 128)
          (by omega : value % 128 + 128 < 256)
        simp only [List.cons_append, skipHighBytes, hne, ne_eq,
          not_false_eq_true, if_true]
        exact ih (value / 128)
          (Nat.div_lt_self (by omega) (by omega)) rest

theorem encodeVarint_all_lt (value : Nat) :
    ∀ b ∈ encodeVarint value, b < 256 := by
  induction value using Nat.strong_induction_on with
  | _ value ih =>
      by_cases h : value < 128
      · rw [encodeVarint_small h]
        intro b hb
        simp only [List.mem_singleton] at hb
        omega
      · rw [encodeVarint_large (by omega)]
        intro b hb
        rcases List.mem_cons.mp hb with hb | hb
        · omega
        · exact ih (value / 128) (Nat.div_lt_self (by omega) (by omega)) b hb

/-! ## Codec lemmas: `int(math.log2 n)` -/

theorem log2Fuel_congr :
    ∀ fuelA : Nat, ∀ n fuelB : Nat, n ≤ fuelA → n ≤ fuelB →
      log2Fuel fuelA n = log2Fuel fuelB n := by
  intro fuelA
  induction fuelA with
  | zero =>
      intro n fuelB hA _
      interval_cases n
      cases fuelB with
      | zero => rfl
      | succ f => simp [log2Fuel]
  | succ fA ih =>
      intro n fuelB hA hB
      by_cases hn : n < 2
      · cases fuelB with
        | zero =>
            have : n = 0 := by omega
            subst this
            simp [log2Fuel]
        | succ fB => simp [log2Fuel, hn]
      · cases fuelB with
        | zero => omega
        | succ fB =>
            simp only [log2Fuel, if_neg hn]
            have h1 : n / 2 ≤ fA := by omega
            have h2 : n / 2 ≤ fB := by omega
            rw [ih (n / 2) fB h1 h2]

theorem pyIntLog2_two_pow (k : Nat) : pyIntLog2 (2 ^ k) = k := by
  induction k with
  | zero => rfl
  | succ j ih =>
      unfold pyIntLog2
      have h2 : ¬ 2 ^ (j + 1) < 2 := by
        have : 2 ≤ 2 ^ (j + 1) := Nat.le_self_pow (by omega) 2
        omega
      cases hp : 2 ^ (j + 1) with
      | zero =>
          have : 0 < 2 ^ (j + 1) := by positivity
          omega
      | succ m =>
          simp only [log2Fuel, if_neg (hp ▸ h2)]
          have hdiv : (m + 1) / 2 = 2 ^ j := by
            rw [← hp, pow_succ, Nat.mul_div_cancel]
            omega
          rw [hdiv]
          have hm : 2 ^ j ≤ m := by
            have : 2 ^ (j + 1) = 2 * 2 ^ j := by ring
            omega
          rw [log2Fuel_congr m (2 ^ j) (2 ^ j) hm le_rfl]
          exact congrArg (· + 1) ih

theorem log2Fuel_le_of_lt_pow :
    ∀ fuel n k : Nat, n < 2 ^ k → log2Fuel fuel n ≤ k := by
  intro fuel
  induction fuel with
  | zero => intro n k _; simp [log2Fuel]
  | succ f ih =>
      intro n k h
      by_cases hn : n < 2
      · simp [log2Fuel, hn]
      · simp only [log2Fuel, if_neg hn]
        cases k with
        | zero => simp at h; omega
        | succ j =>
            have : n / 2 < 2 ^ j := by
              have : 2 ^ (j + 1) = 2 * 2 ^ j := by ring
              omega
            have := ih (n / 2) j this
            omega

theorem pyIntLog2_le_of_lt_pow {n k : Nat} (h : n < 2 ^ k) :
    pyIntLog2 n ≤ k := log2Fuel_le_of_lt_pow n n k h

/-! ## Codec lemmas: bits, 5-bit and 8-bit regrouping -/

set_option maxRecDepth 8000 in
theorem bitsVal_byteBits_fin : ∀ x : Fin 256, bitsVal (byteBits x.val) = x.val := by
  decide

theorem bitsVal_byteBits {b : Nat} (h : b < 256) : bitsVal (byteBits b) = b :=
  bitsVal_byteBits_fin ⟨b, h⟩

theorem fiveBits_bitsVal :
    ∀ a b c d e : Bool, fiveBits (bitsVal [a, b, c, d, e]) = [a, b, c, d, e] := by
  decide

theorem bitsVal_lt (l : List Bool) : bitsVal l < 2 ^ l.length := by
  induction l with
  | nil => simp [bitsVal]
  | cons b bs ih =>
      simp only [bitsVal, List.length_cons, pow_succ]
      cases b <;> simp <;> omega

theorem charToVal_valToChar_fin :
    ∀ v : Fin 32, charToVal (valToChar v.val) = some v.val := by
  decide

theorem charToVal_valToChar {v : Nat} (h : v < 32) :
    charToVal (valToChar v) = some v := charToVal_valToChar_fin ⟨v, h⟩

theorem chunk5_mem_length {bits : List Bool} :
    ∀ g ∈ chunk5 bits, g.length = 5 := by
  induction bits using chunk5.induct with
  | case1 b1 b2 b3 b4 b5 rest ih =>
      intro g hg
      rw [chunk5] at hg
      rcases List.mem_cons.mp hg with h | h
      · subst h; rfl
      · exact ih g h
  | case2 => intro g hg; simp [chunk5] at hg
  | case3 b1 => intro g hg; simp only [chunk5, List.mem_singleton] at hg; subst hg; rfl
  | case4 b1 b2 => intro g hg; simp only [chunk5, List.mem_singleton] at hg; subst hg; rfl
  | case5 b1 b2 b3 => intro g hg; simp only [chunk5, List.mem_singleton] at hg; subst hg; rfl
  | case6 b1 b2 b3 b4 => intro g hg; simp only [chunk5, List.mem_singleton] at hg; subst hg; rfl

/-- Re-expanding the 5-bit groups recovers the bit stream plus the zero
padding that filled the last group. -/
theorem chunk5_flat (bits : List Bool) :
    (chunk5 bits).flatMap (fun g => fiveBits (bitsVal g)) =
      bits ++ List.replicate ((5 - bits.length % 5) % 5) false := by
  induction bits using chunk5.induct with
  | case1 b1 b2 b3 b4 b5 rest ih =>
      rw [chunk5]
      simp only [List.flatMap_cons, fiveBits_bitsVal, ih, List.length_cons]
      have harith : (5 - (rest.length + 1 + 1 + 1 + 1 + 1) % 5) % 5 =
          (5 - rest.length % 5) % 5 := by omega
      rw [harith]
      simp
  | case2 => rfl
  | case3 b1 =>
      simp only [chunk5, List.flatMap_cons, List.flatMap_nil,
        fiveBits_bitsVal, List.append_nil, List.length_singleton]
      rfl
  | case4 b1 b2 =>
      simp only [chunk5, List.flatMap_cons, List.flatMap_nil,
        fiveBits_bitsVal, List.append_nil]
      rfl
  | case5 b1 b2 b3 =>
      simp only [chunk5, List.flatMap_cons, List.flatMap_nil,
        fiveBits_bitsVal, List.append_nil]
      rfl
  | case6 b1 b2 b3 b4 =>
      simp only [chunk5, List.flatMap_cons, List.flatMap_nil,
        fiveBits_bitsVal, List.append_nil]
      rfl

theorem chunk5_length (bits : List Bool) :
    (chunk5 bits).length = (bits.length + 4) / 5 := by
  induction bits using chunk5.induct with
  | case1 b1 b2 b3 b4 b5 rest ih =>
      rw [chunk5]
      simp only [List.length_cons, ih]
      omega
  | case2 => rfl
  | case3 b1 => simp [chunk5]
  | case4 b1 b2 => simp [chunk5]
  | case5 b1 b2 b3 => simp [chunk5]
  | case6 b1 b2 b3 b4 => simp [chunk5]

theorem chunk8_short {l : List Bool} (h : l.length < 8) : chunk8 l = [] := by
  match l, h with
  | [], _ => rfl
  | [a], _ => rfl
  | [a, b], _ => rfl
  | [a, b, c], _ => rfl
  | [a, b, c, d], _ => rfl
  | [a, b, c, d, e], _ => rfl
  | [a, b, c, d, e, f], _ => rfl
  | [a, b, c, d, e, f, g], _ => rfl

/-- Regrouping the bit stream of a byte string into bytes recovers the
byte string, discarding up to seven trailing padding bits. -/
theorem chunk8_flatMap_byteBits (data : List Nat)
    (hdata : ∀ b ∈ data, b < 256) :
    ∀ pad : List Bool, pad.length < 8 →
      chunk8 (data.flatMap byteBits ++ pad) = data := by
  induction data with
  | nil =>
      intro pad hpad
      simpa using chunk8_short (by simpa using hpad)
  | cons b rest ih =>
      intro pad hpad
      have hb : b < 256 := hdata b (List.mem_cons_self b rest)
      simp only [List.flatMap_cons, byteBits, List.cons_append,
        List.append_assoc]
      rw [chunk8]
      have hval : bitsVal [b.testBit 7, b.testBit 6, b.testBit 5, b.testBit 4,
          b.testBit 3, b.testBit 2, b.testBit 1, b.testBit 0] = b := by
        have := bitsVal_byteBits hb
        simpa [byteBits] using this
      rw [hval]
      congr 1
      exact ih (fun x hx => hdata x (List.mem_cons_of_mem b hx)) pad hpad

theorem length_flatMap_byteBits (data : List Nat) :
    (data.flatMap byteBits).length = 8 * data.length := by
  induction data with
  | nil => rfl
  | cons b rest ih =>
      simp only [List.flatMap_cons, List.length_append, ih, byteBits,
        List.length_cons, List.length_nil]
      omega

theorem mapM_charToVal_encoded (l : List (List Bool))
    (h : ∀ g ∈ l, g.length = 5) :
    (l.map (fun g => valToChar (bitsVal g))).mapM charToVal =
      some (l.map bitsVal) := by
  induction l with
  | nil => rfl
  | cons g rest ih =>
      have hg : bitsVal g < 32 := by
        have := bitsVal_lt g
        rw [h g (List.mem_cons_self g rest)] at this
        simpa using this
      simp only [List.map_cons, List.mapM_cons,
        charToVal_valToChar hg,
        ih (fun q hq => h q (List.mem_cons_of_mem g hq))]
      rfl

/-- `_decode_multibase_base32` inverts `_encode_multibase_base32` on
every byte string. -/
theorem pyB32Decode_pyB32Encode (data : List Nat)
    (hdata : ∀ b ∈ data, b < 256) :
    pyB32Decode (pyB32Encode data) = .ok data := by
  unfold pyB32Encode pyB32Decode
  have hlen : ((chunk5 (data.flatMap byteBits)).map
      (fun g => valToChar (bitsVal g))).length =
        (8 * data.length + 4) / 5 := by
    rw [List.length_map, chunk5_length, length_flatMap_byteBits]
  rw [if_neg (by rw [hlen]; omega)]
  rw [mapM_charToVal_encoded _ chunk5_mem_length]
  show Except.ok (chunk8
      ((List.map bitsVal (chunk5 (data.flatMap byteBits))).flatMap fiveBits))
    = Except.ok data
  have hflat : ((chunk5 (data.flatMap byteBits)).map bitsVal).flatMap fiveBits
      = data.flatMap byteBits
        ++ List.replicate ((5 - (data.flatMap byteBits).length % 5) % 5)
          false := by
    rw [List.flatMap_map]
    exact chunk5_flat (data.flatMap byteBits)
  rw [hflat, chunk8_flatMap_byteBits data hdata _ (by
    rw [List.length_replicate]
    omega)]

/-! ## Codec lemmas: multibase prefixes and extraction -/

/-- A CID whose bytes start `0x01 0x81 …` (version 1, the first varint
byte of the fil-commitment-unsealed codec) base32-encodes to a string
starting `baga`, whatever follows. -/
theorem startsWith_baga (rest : List Nat) :
    startsWithChars ['b', 'a', 'g', 'a']
      (encodeMultibaseBase32 (1 :: 129 :: rest)) = true := by
  rfl

/-- A CID whose bytes start `0x01 0x55` (version 1, raw codec)
base32-encodes to a string starting `bafk`, whatever follows. -/
theorem startsWith_bafk (rest : List Nat) :
    startsWithChars ['b', 'a', 'f', 'k']
      (encodeMultibaseBase32 (1 :: 85 :: rest)) = true := by
  rfl

/-- Decoding a freshly encoded v1-shaped byte string gives the bytes
back (the prefix check passes and base32 round-trips). -/
theorem decode_encode_v1 (rest : List Nat) (h : ∀ b ∈ rest, b < 256) :
    decodeMultibaseBase32 (encodeMultibaseBase32 (1 :: 129 :: rest)) =
      .ok (1 :: 129 :: rest) := by
  unfold decodeMultibaseBase32
  rw [startsWith_baga]
  simp only [Bool.true_or, if_true]
  show pyB32Decode (pyB32Encode (1 :: 129 :: rest)) = _
  exact pyB32Decode_pyB32Encode _ (by
    intro b hb
    rcases List.mem_cons.mp hb with h1 | hb
    · omega
    rcases List.mem_cons.mp hb with h1 | hb
    · omega
    · exact h b hb)

/-- Decoding a freshly encoded v2-shaped byte string gives the bytes
back. -/
theorem decode_encode_v2 (rest : List Nat) (h : ∀ b ∈ rest, b < 256) :
    decodeMultibaseBase32 (encodeMultibaseBase32 (1 :: 85 :: rest)) =
      .ok (1 :: 85 :: rest) := by
  unfold decodeMultibaseBase32
  rw [startsWith_bafk]
  simp only [Bool.or_true, if_true]
  show pyB32Decode (pyB32Encode (1 :: 85 :: rest)) = _
  exact pyB32Decode_pyB32Encode _ (by
    intro b hb
    rcases List.mem_cons.mp hb with h1 | hb
    · omega
    rcases List.mem_cons.mp hb with h1 | hb
    · omega
    · exact h b hb)

/-- Claim C2's first leg: the v1 root-hash extraction inverts the
(spec-modelled) v1 construction. -/
theorem extract_mkPieceCIDv1 (rootHash : List Nat)
    (hlen : rootHash.length = 32) (hbytes : ∀ b ∈ rootHash, b < 256) :
    extractRootHashFromPieceCIDv1 (mkPieceCIDv1 rootHash) = .ok rootHash := by
  have hshape : mkPieceCIDv1 rootHash =
      encodeMultibaseBase32 (1 :: 129 :: (226 :: 3 :: 146 :: 32 :: 32 :: rootHash)) := by
    rfl
  have hdec : decodeMultibaseBase32 (mkPieceCIDv1 rootHash) =
      .ok (1 :: 129 :: (226 :: 3 :: 146 :: 32 :: 32 :: rootHash)) := by
    rw [hshape]
    exact decode_encode_v1 _ (by
      intro b hb
      simp only [List.mem_cons] at hb
      rcases hb with h1 | h1 | h1 | h1 | h1 | hb
      · omega
      · omega
      · omega
      · omega
      · omega
      · exact hbytes b hb)
  unfold extractRootHashFromPieceCIDv1
  rw [hdec, exBind_ok]
  show Except.ok (rootHash.take 32) = Except.ok rootHash
  rw [List.take_of_length_le (by omega)]

/-! ## Claim C1: the v2 encoder is bit-exact with the wire format -/

/-- On valid inputs the encoder from the code agrees with the
specification's formula. -/
theorem createPieceCIDv2_eq_spec (rootHash : List Nat)
    (payloadSize paddedSize k : Nat)
    (hk : paddedSize / 32 = 2 ^ k)
    (hsize : payloadSize ≤ paddedSize * 127 / 128)
    (hbound : paddedSize < 2 ^ 64) :
    createPieceCIDv2 rootHash payloadSize paddedSize =
      .ok (specEncodeV2 rootHash payloadSize paddedSize) := by
  have hk64 : k < 64 := by
    have h1 : 2 ^ k ≤ paddedSize := by
      rw [← hk]
      exact Nat.div_le_self _ _
    have h2 : (2 : Nat) ^ k < 2 ^ 64 := lt_of_le_of_lt h1 hbound
    exact (Nat.pow_lt_pow_iff_right (by norm_num)).mp h2
  simp only [createPieceCIDv2, specEncodeV2, NODE_SIZE, RAW_CODEC,
    FR32_SHA2_256_TRUNC254_PADBINTREE]
  rw [hk]
  rw [if_pos (by positivity : 0 < (2 : Nat) ^ k)]
  rw [pyIntLog2_two_pow, Nat.log2_two_pow]
  rw [if_neg (show ¬ ((paddedSize * 127 / 128 : Nat) : Int)
      - (payloadSize : Int) < 0 by omega)]
  rw [exBind_pure]
  rw [if_neg (by omega : ¬ k ≥ 256)]
  rw [Int.toNat_sub]
  rfl

/-- Claim C1: for a 32-byte root hash and u64 sizes with `paddedSize/32` a
power of two and `floor(paddedSize*127/128) ≥ payloadSize`, the encoder
produces exactly `version(1) || varint(0x55) || varint(0x1011) ||
varint(len digest) || digest` with `digest = varint(padding) ||
byte(treeHeight) || rootHash`, base32-lower with a `b` prefix and no
padding characters — `specEncodeV2` transcribes the specification's
formula. -/
theorem C1_createPieceCIDv2_matches_spec (rootHash : List Nat)
    (payloadSize paddedSize k : Nat)
    (hk : paddedSize / 32 = 2 ^ k)
    (hsize : payloadSize ≤ paddedSize * 127 / 128)
    (hbound : paddedSize < 2 ^ 64) :
    createPieceCIDv2 rootHash payloadSize paddedSize =
      .ok (specEncodeV2 rootHash payloadSize paddedSize) :=
  createPieceCIDv2_eq_spec rootHash payloadSize paddedSize k hk hsize hbound

/-- Claim C1 (witness): the all-zero 32-byte root with `payloadSize = 128`,
`paddedSize = 256` (tree height 3). -/
theorem C1_createPieceCIDv2_matches_spec_witness :
    256 / 32 = 2 ^ 3 ∧ 128 ≤ 256 * 127 / 128 ∧ 256 < 2 ^ 64 ∧
    createPieceCIDv2 (List.replicate 32 0) 128 256 =
      .ok (specEncodeV2 (List.replicate 32 0) 128 256) :=
  ⟨by norm_num, by norm_num, by norm_num,
   C1_createPieceCIDv2_matches_spec (List.replicate 32 0) 128 256 3
     (by norm_num) (by norm_num) (by norm_num)⟩

/-! ## Claim C2: round trips -/

/-- Walking the documented v2 layout recovers the trailing 32-byte root
from any freshly encoded byte string of that shape (the two leading
varint values and the height byte are arbitrary). -/
theorem rootHashFromV2_encode (v1 v2 th : Nat) (hth : th < 256)
    (root : List Nat) (hlen : root.length = 32)
    (hbytes : ∀ b ∈ root, b < 256) :
    rootHashFromPieceCIDv2 (encodeMultibaseBase32
        (1 :: 85 :: 145 :: 32 ::
          (encodeVarint v1 ++ ((encodeVarint v2 ++ [th]) ++ root)))) =
      .ok root := by
  have hall : ∀ b ∈ ((145 : Nat) :: 32 ::
      (encodeVarint v1 ++ ((encodeVarint v2 ++ [th]) ++ root))), b < 256 := by
    intro b hb
    have hcases : b = 145 ∨ b = 32 ∨ b ∈ encodeVarint v1
        ∨ b ∈ encodeVarint v2 ∨ b = th ∨ b ∈ root := by
      simp only [List.mem_cons, List.mem_append, List.mem_singleton,
        List.not_mem_nil, or_false] at hb
      tauto
    rcases hcases with h | h | h | h | h | h
    · omega
    · omega
    · exact encodeVarint_all_lt v1 b h
    · exact encodeVarint_all_lt v2 b h
    · omega
    · exact hbytes b h
  unfold rootHashFromPieceCIDv2
  rw [decode_encode_v2 _ hall, exBind_ok]
  have s85 : ∀ X : List Nat, skipHighBytes (85 :: X) = .ok X := fun X => rfl
  have s145 : ∀ X : List Nat, skipHighBytes (145 :: 32 :: X) = .ok X :=
    fun X => rfl
  simp only [List.drop_succ_cons, List.drop_zero, s85, exBind_ok, s145]
  rw [skipHighBytes_encodeVarint, exBind_ok, List.append_assoc,
    skipHighBytes_encodeVarint, exBind_ok]
  show Except.ok (root.take 32) = Except.ok root
  rw [List.take_of_length_le (by omega)]

/-- Claim C2: for any valid triple (32-byte root, u64 sizes, `paddedSize/32`
a power of two, `paddedSize*127/128 ≥ payloadSize`): decoding a v1 CID
wrapping the root recovers exactly the root; v2 encoding is
deterministic (equal inputs give byte-identical strings); converting the
v1 CID to v2 equals encoding the root directly; and the v2 string
decodes back to the same 32-byte root. -/
theorem C2_roundtrip (rootHash : List Nat) (hlen : rootHash.length = 32)
    (hbytes : ∀ b ∈ rootHash, b < 256) (payloadSize paddedSize k : Nat)
    (hk : paddedSize / 32 = 2 ^ k)
    (hsize : payloadSize ≤ paddedSize * 127 / 128)
    (hbound : paddedSize < 2 ^ 64) :
    extractRootHashFromPieceCIDv1 (mkPieceCIDv1 rootHash) = .ok rootHash
    ∧ (∀ (r2 : List Nat) (p2 s2 : Nat), r2 = rootHash → p2 = payloadSize →
        s2 = paddedSize →
        createPieceCIDv2 r2 p2 s2 =
          createPieceCIDv2 rootHash payloadSize paddedSize)
    ∧ convertToPieceCIDv2 (mkPieceCIDv1 rootHash) payloadSize paddedSize =
        createPieceCIDv2 rootHash payloadSize paddedSize
    ∧ (∀ s, createPieceCIDv2 rootHash payloadSize paddedSize = .ok s →
        rootHashFromPieceCIDv2 s = .ok rootHash) := by
  have hext := extract_mkPieceCIDv1 rootHash hlen hbytes
  have hk64 : k < 64 := by
    have h1 : 2 ^ k ≤ paddedSize := by
      rw [← hk]
      exact Nat.div_le_self _ _
    have h2 : (2 : Nat) ^ k < 2 ^ 64 := lt_of_le_of_lt h1 hbound
    exact (Nat.pow_lt_pow_iff_right (by norm_num)).mp h2
  refine ⟨hext, ?_, ?_, ?_⟩
  · intro r2 p2 s2 h1 h2 h3
    rw [h1, h2, h3]
  · unfold convertToPieceCIDv2
    rw [hext, exBind_ok]
  · intro s hs
    rw [createPieceCIDv2_eq_spec rootHash payloadSize paddedSize k hk hsize
      hbound] at hs
    have hs' : s = specEncodeV2 rootHash payloadSize paddedSize := by
      injection hs with h
      exact h.symm
    subst hs'
    have hshape : specEncodeV2 rootHash payloadSize paddedSize =
        encodeMultibaseBase32
          (1 :: 85 :: 145 :: 32 ::
            (encodeVarint ((encodeVarint (paddedSize * 127 / 128 - payloadSize)
                ++ [Nat.log2 (paddedSize / 32)] ++ rootHash).length)
              ++ ((encodeVarint (paddedSize * 127 / 128 - payloadSize)
                ++ [Nat.log2 (paddedSize / 32)]) ++ rootHash))) := by
      rfl
    rw [hshape]
    exact rootHashFromV2_encode _ _ _ (by rw [hk, Nat.log2_two_pow]; omega)
      rootHash hlen hbytes

/-- Claim C2 (witness): the spec's end-to-end scenario — the all-zero 32-byte
root (v1 CID `baga6ea4seaq…`), `payloadSize = 128`, `paddedSize = 256`:
the v1 decode, the v1→v2 conversion and the v2 decode all recover the
root. -/
theorem C2_roundtrip_witness :
    extractRootHashFromPieceCIDv1 (mkPieceCIDv1 (List.replicate 32 0)) =
      .ok (List.replicate 32 0)
    ∧ convertToPieceCIDv2 (mkPieceCIDv1 (List.replicate 32 0)) 128 256 =
        createPieceCIDv2 (List.replicate 32 0) 128 256
    ∧ rootHashFromPieceCIDv2
        ("bafkzcibcpybqaaaaaaaaaaaaaaaaaaaaaaaaaaaaaaaaaaaaaaaaaaaaaaaaaaa").data
        = .ok (List.replicate 32 0) := by
  have h := C2_roundtrip (List.replicate 32 0) (by simp)
    (by intro b hb; simp only [List.eq_of_mem_replicate hb]; omega)
    128 256 3 (by norm_num) (by norm_num) (by norm_num)
  refine ⟨h.1, h.2.2.1, ?_⟩
  exact h.2.2.2
    ("bafkzcibcpybqaaaaaaaaaaaaaaaaaaaaaaaaaaaaaaaaaaaaaaaaaaaaaaaaaaa").data
    (by rfl)

/-! ## Claim C3: codec validation and failure modes -/

/-- Claim C3 (counterexample).  The claim says the v2 encoder fails whenever
`paddedSize/32` is zero or not a power of two; in fact it succeeds both
at `paddedSize = 96` (three leaves, tree height silently floored to 1)
and at `paddedSize = 0` (zero leaves, tree height 0). -/
theorem C3_missing_validation_counterexample :
    isOkE (createPieceCIDv2 (List.replicate 32 0) 64 96) = true
    ∧ isOkE (createPieceCIDv2 (List.replicate 32 0) 0 0) = true := by
  constructor
  · rfl
  · rfl

/-- Claim C3 (amended).  The encoder validates nothing: a negative computed
padding aborts with the generic byte-range `ValueError` raised by
`bytearray.append` (not a distinct `EncodingError`), while a zero or
non-power-of-two leaf count is accepted silently (every size with
non-negative padding encodes successfully).  The decoder raises a
generic `ValueError` on a malformed multibase prefix and a bare
`IndexError` on a truncated varint, rather than distinct format
errors. -/
theorem C3_codec_validation_amended :
    (∀ (rootHash : List Nat) (payloadSize paddedSize : Nat),
      paddedSize * 127 / 128 < payloadSize →
      createPieceCIDv2 rootHash payloadSize paddedSize =
        .error (.valueError "byte must be in range(0, 256)"))
    ∧ (∀ (rootHash : List Nat) (payloadSize paddedSize : Nat),
      payloadSize ≤ paddedSize * 127 / 128 → paddedSize < 2 ^ 64 →
      isOkE (createPieceCIDv2 rootHash payloadSize paddedSize) = true)
    ∧ (∀ s : List Char,
      startsWithChars ['b', 'a', 'g', 'a'] s = false →
      startsWithChars ['b', 'a', 'f', 'k'] s = false →
      extractRootHashFromPieceCIDv1 s =
        .error (.valueError ("Unsupported CID format: " ++ String.mk s)))
    ∧ extractRootHashFromPieceCIDv1 ("baga6e").data = .error .indexError := by
  refine ⟨?_, ?_, ?_, ?_⟩
  · intro rootHash payloadSize paddedSize hneg
    simp only [createPieceCIDv2, NODE_SIZE]
    rw [if_pos (show ((paddedSize * 127 / 128 : Nat) : Int)
        - (payloadSize : Int) < 0 by omega)]
    rfl
  · intro rootHash payloadSize paddedSize hsize hbound
    have hth : (if paddedSize / 32 > 0 then pyIntLog2 (paddedSize / 32) else 0)
        < 256 := by
      split
      · have hlt : paddedSize / 32 < 2 ^ 64 :=
          lt_of_le_of_lt (Nat.div_le_self _ _) hbound
        have := pyIntLog2_le_of_lt_pow hlt
        omega
      · omega
    simp only [createPieceCIDv2, NODE_SIZE]
    rw [if_neg (show ¬ ((paddedSize * 127 / 128 : Nat) : Int)
        - (payloadSize : Int) < 0 by omega)]
    rw [exBind_pure]
    rw [if_neg (by omega)]
    rfl
  · intro s h1 h2
    unfold extractRootHashFromPieceCIDv1 decodeMultibaseBase32
    rw [h1, h2]
    rfl
  · rfl

/-- Claim C3 (witness for the amended theorem): negative padding at
`(payload, padded) = (128, 96)` raises the byte-range `ValueError`; the
non-power-of-two `(64, 96)` encodes fine; `xyz` is rejected as an
unsupported CID format. -/
theorem C3_codec_validation_amended_witness :
    createPieceCIDv2 (List.replicate 32 0) 128 96 =
      .error (.valueError "byte must be in range(0, 256)")
    ∧ isOkE (createPieceCIDv2 (List.replicate 32 0) 64 96) = true
    ∧ extractRootHashFromPieceCIDv1 ("xyz").data =
        .error (.valueError ("Unsupported CID format: " ++ String.mk ("xyz").data)) := by
  refine ⟨?_, ?_, ?_⟩
  · exact C3_codec_validation_amended.1 (List.replicate 32 0) 128 96
      (by norm_num)
  · exact C3_codec_validation_amended.2.1 (List.replicate 32 0) 64 96
      (by norm_num) (by norm_num)
  · exact C3_codec_validation_amended.2.2.1 ("xyz").data (by rfl) (by rfl)

end Pynapse
